import Mathlib

/-!
Verification of the auto-run browser-automation core: a shallow embedding of
the error classifier, the smart-retry executor, the session logger and the
execution engine, with theorems checking the specification's claims.

Modelling conventions:
* TypeScript strings are Lean `String`; the JS helpers `toLowerCase`,
  `includes` and `startsWith` are embedded as executable functions on the
  underlying character lists.
* The `Result<T>` discriminated union of `src/types/index.ts` is the
  inductive `Result`.
* Asynchronous operations are embedded as pure functions; an operation that
  may be invoked several times is a function from the (1-based) attempt
  number to its outcome.  A JS function that can either return a `Result`
  or throw is embedded as returning `OpOutcome` (declared result vs thrown
  fault).
* Wall-clock time is abstracted: durations and `executionTime` are 0 and
  timestamps are explicit `Nat` parameters.
* Functions whose interest lies in *which collaborators they invoke*
  additionally return an event trace (a ghost instrumentation that does not
  influence the computed values).
-/

namespace AutoRun

/-! ## JS string helpers -/

/-- Bool test: is the first character list a prefix of the second? -/
def charsHasPrefix : List Char → List Char → Bool
  | [], _ => true
  | _ :: _, [] => false
  | a :: as, b :: bs => a == b && charsHasPrefix as bs

/-- Bool test: does the second character list contain the first as a
contiguous infix? -/
def charsHasInfix (pat : List Char) : List Char → Bool
  | [] => pat.isEmpty
  | a :: rest => charsHasPrefix pat (a :: rest) || charsHasInfix pat rest

/-- JS `haystack.includes(needle)`. -/
def strIncludes (s pat : String) : Bool := charsHasInfix pat.data s.data

/-- JS `s.toLowerCase()` (ASCII case folding, which is all the classifier
patterns need). -/
def strToLower (s : String) : String := ⟨s.data.map Char.toLower⟩

/-- JS `s.startsWith(p)`. -/
def strStartsWith (s pat : String) : Bool := charsHasPrefix pat.data s.data

/-! ## Result pattern (src/types/index.ts) -/

/-- `Result<T> = Success<T> | Failure` from `src/types/index.ts`. -/
inductive Result (T : Type) where
  | success (data : T)
  | failure (error : String)
deriving DecidableEq, Repr

/-! ## Data model (src/types/index.ts) -/

/-- A TS `string | number` union value. -/
inductive JsValue where
  | str (s : String)
  | num (n : Int)
deriving DecidableEq, Repr

/-- The `type` tag of an `ActionStep`. -/
inductive ActionType where
  | navigate | click | typeAction | wait | screenshot | scroll | select
deriving DecidableEq, Repr

/-- String value of the `ActionStep.type` tag (the source uses the literal
union `'navigate' | 'click' | 'type' | ...`; `typeAction` stands for the
source tag `'type'`). -/
def actionTypeValue : ActionType → String
  | .navigate => "navigate"
  | .click => "click"
  | .typeAction => "type"
  | .wait => "wait"
  | .screenshot => "screenshot"
  | .scroll => "scroll"
  | .select => "select"

/-- `ActionStep` from `src/types/index.ts`. -/
structure ActionStep where
  type : ActionType
  selector : Option String := none
  value : Option JsValue := none
  url : Option String := none
  timeout : Option Nat := none
  description : Option String := none
deriving DecidableEq, Repr

/-- `AutomationScript` from `src/types/index.ts`. -/
structure AutomationScript where
  name : String
  description : Option String := none
  baseUrl : Option String := none
  steps : List ActionStep
deriving DecidableEq, Repr

/-! ## Configuration (src/config) -/

structure BrowserConfig where
  type : String
  headless : Bool
  slowMo : Nat
  timeout : Nat
deriving DecidableEq, Repr

structure ActionsConfig where
  waitBetweenActions : Nat
  retryAttempts : Nat
  screenshotOnError : Bool
deriving DecidableEq, Repr

structure LoggingConfig where
  level : String
  outputDir : String
  saveScreenshots : Bool
  verbose : Bool
deriving DecidableEq, Repr

structure AutoConfig where
  browser : BrowserConfig
  actions : ActionsConfig
  logging : LoggingConfig
deriving DecidableEq, Repr

/-! ## Error classifier (src/utils/error-handler.ts) -/

/-- `ErrorType` enum. -/
inductive ErrorType where
  | NETWORK_ERROR
  | TIMEOUT_ERROR
  | ELEMENT_NOT_FOUND
  | ELEMENT_NOT_VISIBLE
  | ELEMENT_NOT_CLICKABLE
  | NAVIGATION_ERROR
  | SCREENSHOT_ERROR
  | VALIDATION_ERROR
  | BROWSER_ERROR
  | UNKNOWN_ERROR
deriving DecidableEq, Repr

/-- The string value carried by each `ErrorType` enum member. -/
def errorTypeValue : ErrorType → String
  | .NETWORK_ERROR => "network_error"
  | .TIMEOUT_ERROR => "timeout_error"
  | .ELEMENT_NOT_FOUND => "element_not_found"
  | .ELEMENT_NOT_VISIBLE => "element_not_visible"
  | .ELEMENT_NOT_CLICKABLE => "element_not_clickable"
  | .NAVIGATION_ERROR => "navigation_error"
  | .SCREENSHOT_ERROR => "screenshot_error"
  | .VALIDATION_ERROR => "validation_error"
  | .BROWSER_ERROR => "browser_error"
  | .UNKNOWN_ERROR => "unknown_error"

/-- Backoff kind of `RetryStrategy.backoff`. -/
inductive Backoff where
  | fixed | exponential | linear
deriving DecidableEq, Repr

/-- `RetryStrategy`.  The optional `recoveryActions` array is omitted: none
of the entries of `DEFAULT_RETRY_STRATEGIES` defines recovery actions and
nothing else ever constructs a strategy, so the recovery-action block of the
retry loop is dead code in the source. -/
structure RetryStrategy where
  maxAttempts : Nat
  delay : Nat
  backoff : Backoff
deriving DecidableEq, Repr

/-- `DEFAULT_RETRY_STRATEGIES` table. -/
def DEFAULT_RETRY_STRATEGIES : ErrorType → RetryStrategy
  | .NETWORK_ERROR => { maxAttempts := 5, delay := 2000, backoff := .exponential }
  | .TIMEOUT_ERROR => { maxAttempts := 3, delay := 3000, backoff := .linear }
  | .ELEMENT_NOT_FOUND => { maxAttempts := 4, delay := 1500, backoff := .fixed }
  | .ELEMENT_NOT_VISIBLE => { maxAttempts := 3, delay := 1000, backoff := .fixed }
  | .ELEMENT_NOT_CLICKABLE => { maxAttempts := 3, delay := 1000, backoff := .fixed }
  | .NAVIGATION_ERROR => { maxAttempts := 3, delay := 2000, backoff := .exponential }
  | .SCREENSHOT_ERROR => { maxAttempts := 2, delay := 500, backoff := .fixed }
  | .VALIDATION_ERROR => { maxAttempts := 1, delay := 0, backoff := .fixed }
  | .BROWSER_ERROR => { maxAttempts := 2, delay := 3000, backoff := .fixed }
  | .UNKNOWN_ERROR => { maxAttempts := 2, delay := 1000, backoff := .fixed }

/-- The `context` attached to a classified error. -/
structure ErrorContext where
  step : Option ActionStep := none
  stepNumber : Option Nat := none
  selector : Option String := none
  url : Option String := none
deriving DecidableEq, Repr

/-- `ClassifiedError`.  The source declares `strategy` optional but every
branch of `classifyError` sets it, so it is total here (the retry loop's
`classifiedError.strategy || DEFAULT_RETRY_STRATEGIES[...]` fallback is
consequently dead). -/
structure ClassifiedError where
  type : ErrorType
  originalError : String
  message : String
  isRetryable : Bool
  strategy : RetryStrategy
  context : ErrorContext
deriving DecidableEq, Repr

/-- JS `step?.selector || 'unknown selector'` (the empty string is falsy). -/
def selectorOrUnknown : Option ActionStep → String
  | some st =>
    match st.selector with
    | some s => if s = "" then "unknown selector" else s
    | none => "unknown selector"
  | none => "unknown selector"

/-- JS `step?.url || 'unknown URL'`. -/
def urlOrUnknown : Option ActionStep → String
  | some st =>
    match st.url with
    | some u => if u = "" then "unknown URL" else u
    | none => "unknown URL"
  | none => "unknown URL"

/-- JS optional chain `step?.selector`. -/
def optSelector (step : Option ActionStep) : Option String := step.bind (·.selector)

/-- JS optional chain `step?.url`. -/
def optUrl (step : Option ActionStep) : Option String := step.bind (·.url)

/-- `classifyError`: ordered cascade of case-insensitive substring checks,
first match wins, with `UNKNOWN_ERROR` as the total fallback. -/
def classifyError (error : String) (step : Option ActionStep := none)
    (stepNumber : Option Nat := none) : ClassifiedError :=
  let lowerError := strToLower error
  if strIncludes lowerError "net::" || strIncludes lowerError "network" ||
      strIncludes lowerError "connection" || strIncludes lowerError "dns" ||
      strIncludes lowerError "refused" then
    { type := .NETWORK_ERROR, originalError := error,
      message := "Network connection issue detected", isRetryable := true,
      strategy := DEFAULT_RETRY_STRATEGIES .NETWORK_ERROR,
      context := { step := step, stepNumber := stepNumber } }
  else if strIncludes lowerError "timeout" || strIncludes lowerError "timed out" ||
      strIncludes lowerError "waiting for" then
    { type := .TIMEOUT_ERROR, originalError := error,
      message := "Operation timed out", isRetryable := true,
      strategy := DEFAULT_RETRY_STRATEGIES .TIMEOUT_ERROR,
      context := { step := step, stepNumber := stepNumber, selector := optSelector step } }
  else if strIncludes lowerError "no element" || strIncludes lowerError "not found" ||
      strIncludes lowerError "cannot find" || strIncludes lowerError "element not found" then
    { type := .ELEMENT_NOT_FOUND, originalError := error,
      message := "Element not found: " ++ selectorOrUnknown step, isRetryable := true,
      strategy := DEFAULT_RETRY_STRATEGIES .ELEMENT_NOT_FOUND,
      context := { step := step, stepNumber := stepNumber, selector := optSelector step } }
  else if strIncludes lowerError "not visible" || strIncludes lowerError "hidden" ||
      strIncludes lowerError "not displayed" then
    { type := .ELEMENT_NOT_VISIBLE, originalError := error,
      message := "Element not visible: " ++ selectorOrUnknown step, isRetryable := true,
      strategy := DEFAULT_RETRY_STRATEGIES .ELEMENT_NOT_VISIBLE,
      context := { step := step, stepNumber := stepNumber, selector := optSelector step } }
  else if strIncludes lowerError "not clickable" || strIncludes lowerError "not interactable" ||
      strIncludes lowerError "element click intercepted" then
    { type := .ELEMENT_NOT_CLICKABLE, originalError := error,
      message := "Element not clickable: " ++ selectorOrUnknown step, isRetryable := true,
      strategy := DEFAULT_RETRY_STRATEGIES .ELEMENT_NOT_CLICKABLE,
      context := { step := step, stepNumber := stepNumber, selector := optSelector step } }
  else if strIncludes lowerError "navigation" || strIncludes lowerError "page crashed" ||
      strIncludes lowerError "page.goto" then
    { type := .NAVIGATION_ERROR, originalError := error,
      message := "Navigation failed: " ++ urlOrUnknown step, isRetryable := true,
      strategy := DEFAULT_RETRY_STRATEGIES .NAVIGATION_ERROR,
      context := { step := step, stepNumber := stepNumber, url := optUrl step } }
  else if strIncludes lowerError "screenshot" then
    { type := .SCREENSHOT_ERROR, originalError := error,
      message := "Screenshot capture failed", isRetryable := true,
      strategy := DEFAULT_RETRY_STRATEGIES .SCREENSHOT_ERROR,
      context := { step := step, stepNumber := stepNumber } }
  else if strIncludes lowerError "validation" || strIncludes lowerError "invalid" then
    { type := .VALIDATION_ERROR, originalError := error,
      message := "Script validation failed", isRetryable := false,
      strategy := DEFAULT_RETRY_STRATEGIES .VALIDATION_ERROR,
      context := { step := step, stepNumber := stepNumber } }
  else if strIncludes lowerError "browser" || strIncludes lowerError "context" ||
      strIncludes lowerError "playwright" then
    { type := .BROWSER_ERROR, originalError := error,
      message := "Browser operation failed", isRetryable := true,
      strategy := DEFAULT_RETRY_STRATEGIES .BROWSER_ERROR,
      context := { step := step, stepNumber := stepNumber } }
  else
    { type := .UNKNOWN_ERROR, originalError := error,
      message := "Unknown error: " ++ error, isRetryable := true,
      strategy := DEFAULT_RETRY_STRATEGIES .UNKNOWN_ERROR,
      context := { step := step, stepNumber := stepNumber } }

/-- `calculateRetryDelay`: backoff-kind-dependent delay for a (1-based)
attempt number.  The source uses JS numbers; for the attempt numbers the
retry loop actually passes (`attempt ≥ 1`) the arithmetic is the natural
number arithmetic used here. -/
def calculateRetryDelay (strategy : RetryStrategy) (attempt : Nat) : Nat :=
  match strategy.backoff with
  | .exponential => strategy.delay * 2 ^ (attempt - 1)
  | .linear => strategy.delay * attempt
  | .fixed => strategy.delay

/-! ## Smart-retry executor (src/utils/error-handler.ts) -/

/-- Outcome of invoking the wrapped async operation once: either a declared
`Result` or a thrown fault (the `catch` channel of the retry loop). -/
inductive OpOutcome (T : Type) where
  | ret (r : Result T)
  | thrown (e : String)

/-- The final failure message of the retry loop:
`lastError.message (lastError.type, attempted N times)`. -/
def retryFailureMessage (lastError : ClassifiedError) (attempt : Nat) : String :=
  lastError.message ++ " (" ++ errorTypeValue lastError.type ++ ", attempted "
    ++ toString attempt ++ " times)"

/-- The `while (true)` loop of `executeWithSmartRetry`, starting at a given
attempt number.  `fuel` is a structural-recursion bound; the loop only
recurses while `attempt < min strategy.maxAttempts budget ≤ budget`, so with
the initial `fuel = budget` of `executeWithSmartRetry` the invariant
`budget - attempt ≤ fuel` holds and the out-of-fuel branch is unreachable
(it is given the same value as the loop's exhausted-retries exit so that it
does not distort the semantics).  The second component of the returned pair
is ghost instrumentation counting how many times the operation was invoked;
the source returns only the `Result`. -/
def smartRetryAux {T : Type} (op : Nat → OpOutcome T) (budget : Nat)
    (step : Option ActionStep) (stepNumber : Option Nat) :
    Nat → Nat → Result T × Nat
  | fuel, attempt =>
    match op attempt with
    | OpOutcome.thrown e =>
      -- unexpected fault: classify its string form, stop immediately
      (Result.failure (retryFailureMessage (classifyError e step stepNumber) attempt), attempt)
    | OpOutcome.ret (Result.success d) => (Result.success d, attempt)
    | OpOutcome.ret (Result.failure e) =>
      let classifiedError := classifyError e step stepNumber
      let maxAttempts := min classifiedError.strategy.maxAttempts budget
      if classifiedError.isRetryable = true ∧ attempt < maxAttempts then
        match fuel with
        | 0 => (Result.failure (retryFailureMessage classifiedError attempt), attempt)
        | fuel + 1 => smartRetryAux op budget step stepNumber fuel (attempt + 1)
      else
        (Result.failure (retryFailureMessage classifiedError attempt), attempt)

/-- `executeWithSmartRetry`: run the operation with classification-driven
retries, capping attempts at `min(strategy.maxAttempts, config.actions.retryAttempts)`.
Returns the source's `Result` paired with the ghost invocation count. -/
def executeWithSmartRetry {T : Type} (op : Nat → OpOutcome T) (config : AutoConfig)
    (step : Option ActionStep := none) (stepNumber : Option Nat := none) :
    Result T × Nat :=
  smartRetryAux op config.actions.retryAttempts step stepNumber
    config.actions.retryAttempts 1

/-! ## Session logger (src/utils/logger.ts) -/

/-- `LogLevel` enum (numeric severity order). -/
inductive LogLevel where
  | DEBUG | INFO | WARN | ERROR
deriving DecidableEq, Repr

/-- The numeric value of each `LogLevel` member. -/
def LogLevel.val : LogLevel → Nat
  | .DEBUG => 0
  | .INFO => 1
  | .WARN => 2
  | .ERROR => 3

/-- The name of each `LogLevel` member (JS `LogLevel[entry.level]`). -/
def LogLevel.levelName : LogLevel → String
  | .DEBUG => "DEBUG"
  | .INFO => "INFO"
  | .WARN => "WARN"
  | .ERROR => "ERROR"

/-- `LogEntry`; the structured `data` payload is abstracted to an optional
string and `timestamp` is an abstract clock reading. -/
structure LogEntry where
  timestamp : Nat
  level : LogLevel
  category : String
  message : String
  data : Option String := none
  step : Option Nat := none
  duration : Option Nat := none
deriving DecidableEq, Repr

/-- `LoggerConfig.format`. -/
inductive LogFormat where
  | json | text | structured
deriving DecidableEq, Repr

/-- `LoggerConfig`. -/
structure LoggerConfig where
  level : LogLevel
  outputDir : String
  enableFileLogging : Bool
  enableConsoleLogging : Bool
  format : LogFormat
  maxFileSize : Nat
  maxFiles : Nat
  includeTimestamp : Bool
  includeStackTrace : Bool
deriving DecidableEq, Repr

/-- The `levelMap` record lookup inside `createLoggerConfig`. -/
def levelMapLookup : String → Option LogLevel
  | "debug" => some .DEBUG
  | "info" => some .INFO
  | "warn" => some .WARN
  | "error" => some .ERROR
  | _ => none

/-- `createLoggerConfig`.  The source computes the minimum level as
`levelMap[autoConfig.logging.level] || LogLevel.INFO`: a missing key yields
INFO, and so does a configured `"debug"` level, because `LogLevel.DEBUG`
is the number 0, which is falsy in JS. -/
def createLoggerConfig (autoConfig : AutoConfig) : LoggerConfig :=
  { level :=
      match levelMapLookup autoConfig.logging.level with
      | some l => if l.val = 0 then LogLevel.INFO else l
      | none => LogLevel.INFO
    outputDir := autoConfig.logging.outputDir
    enableFileLogging := true
    enableConsoleLogging := true
    format := .structured
    maxFileSize := 50
    maxFiles := 10
    includeTimestamp := true
    includeStackTrace := autoConfig.logging.level == "debug" }

/-- `ScreenshotInfo.type`. -/
inductive ScreenshotKind where
  | success | error | debug
deriving DecidableEq, Repr

/-- `ScreenshotInfo` (the source field `type` is `kind` here). -/
structure ScreenshotInfo where
  filename : String
  path : String
  timestamp : Nat
  step : Option Nat := none
  kind : ScreenshotKind
  size : Nat
deriving DecidableEq, Repr

/-- The mutable state of a `Logger` instance, with the console and file
sinks represented by the ordered sequences of entries written to them. -/
structure LoggerState where
  logBuffer : List LogEntry := []
  screenshots : List ScreenshotInfo := []
  consoleWrites : List LogEntry := []
  fileWrites : List LogEntry := []
deriving DecidableEq, Repr

namespace Logger

/-- `Logger.log`, the main logging method: entries below the configured
minimum severity are dropped before any buffer or sink effect; admitted
entries are appended to the in-memory buffer and then written to the console
sink and the file sink when those are enabled. -/
def log (config : LoggerConfig) (st : LoggerState) (level : LogLevel)
    (category message : String) (data : Option String := none)
    (step : Option Nat := none) (duration : Option Nat := none)
    (timestamp : Nat := 0) : LoggerState :=
  if level.val < config.level.val then st
  else
    let entry : LogEntry :=
      { timestamp := timestamp, level := level, category := category,
        message := message, data := data, step := step, duration := duration }
    let st := { st with logBuffer := st.logBuffer ++ [entry] }
    let st :=
      if config.enableConsoleLogging then
        { st with consoleWrites := st.consoleWrites ++ [entry] }
      else st
    if config.enableFileLogging then
      { st with fileWrites := st.fileWrites ++ [entry] }
    else st

/-- `Logger.getSessionSummary` return value; `logsByLevel` is the
per-severity count map keyed by level. -/
structure SessionSummary where
  sessionId : String
  totalLogs : Nat
  logsByLevel : LogLevel → Nat
  screenshots : List ScreenshotInfo
  duration : Nat
  logFilePath : String

/-- `Logger.getSessionSummary`: total entry count, per-level counts, the
screenshot list, and session duration (last minus first entry timestamp, 0
when the buffer has no entries). -/
def getSessionSummary (sessionId logFilePath : String) (st : LoggerState) :
    SessionSummary :=
  { sessionId := sessionId
    totalLogs := st.logBuffer.length
    logsByLevel := fun lv => (st.logBuffer.filter (fun e => e.level == lv)).length
    screenshots := st.screenshots
    duration :=
      match st.logBuffer.head?, st.logBuffer.getLast? with
      | some firstLog, some lastLog => lastLog.timestamp - firstLog.timestamp
      | _, _ => 0
    logFilePath := logFilePath }

/-- Insert an entry into a timestamp-sorted list (ascending). -/
def insertByTimestamp (e : LogEntry) : List LogEntry → List LogEntry
  | [] => [e]
  | x :: xs =>
    if e.timestamp < x.timestamp then e :: x :: xs else x :: insertByTimestamp e xs

/-- Sort entries by ascending timestamp (the JS
`sort((a, b) => a.timestamp - b.timestamp)`). -/
def sortByTimestamp : List LogEntry → List LogEntry
  | [] => []
  | x :: xs => insertByTimestamp x (sortByTimestamp xs)

/-- `Logger.getExecutionTimeline`: the chronological subsequence of step and
browser entries of the buffer. -/
def getExecutionTimeline (st : LoggerState) : List LogEntry :=
  sortByTimestamp
    (st.logBuffer.filter
      (fun e => strStartsWith e.category "step-" || e.category == "browser"))

end Logger

/-! ## Browser controller teardown (src/browser/controller.ts) -/

/-- `BrowserController`: a field is `true` when the corresponding handle is
non-null. -/
structure BrowserController where
  browser : Bool
  context : Bool
  page : Bool
deriving DecidableEq, Repr

/-- Behaviour of the three driver `close()` calls: `none` means the call
succeeds, `some e` means it throws `e`. -/
structure CloseBehavior where
  pageClose : Option String := none
  contextClose : Option String := none
  browserClose : Option String := none
deriving DecidableEq, Repr

/-- Trace of the driver close calls that completed successfully. -/
inductive CloseEvent where
  | pageClosed | contextClosed | browserClosed
deriving DecidableEq, Repr

/-- `closeBrowser`: close page, context and browser in that order inside a
single try/catch — the first close that throws aborts the remaining closes
and produces a failure `Result`.  The second component is the ghost trace of
completed closes. -/
def closeBrowser (controller : BrowserController) (beh : CloseBehavior) :
    Result Unit × List CloseEvent :=
  match (if controller.page then beh.pageClose else none) with
  | some e => (Result.failure ("Failed to close browser: " ++ e), [])
  | none =>
    let evs := if controller.page then [CloseEvent.pageClosed] else []
    match (if controller.context then beh.contextClose else none) with
    | some e => (Result.failure ("Failed to close browser: " ++ e), evs)
    | none =>
      let evs := evs ++ (if controller.context then [CloseEvent.contextClosed] else [])
      match (if controller.browser then beh.browserClose else none) with
      | some e => (Result.failure ("Failed to close browser: " ++ e), evs)
      | none =>
        (Result.success (),
          evs ++ (if controller.browser then [CloseEvent.browserClosed] else []))

/-! ## Validator interface (src/actions/validator.ts) -/

/-- `ValidationError`. -/
structure ValidationError where
  field : String
  message : String
  step : Option Nat := none
deriving DecidableEq, Repr

/-- `ValidationResult`. -/
structure ValidationResult where
  valid : Bool
  errors : List ValidationError
  warnings : List String
deriving DecidableEq, Repr

/-- `formatValidationResults` (the engine embeds its output in the
validation-failure message).  JS `error.step ? ... : ''` treats step 0 as
falsy. -/
def formatValidationResults (result : ValidationResult) : String :=
  let lines : List String :=
    if result.valid then ["✅ Script validation passed"]
    else
      ["❌ Script validation failed", ""] ++
        result.errors.map (fun e =>
          let stepInfo :=
            match e.step with
            | some n => if n = 0 then "" else " (Step " ++ toString n ++ ")"
            | none => ""
          "Error in " ++ e.field ++ stepInfo ++ ": " ++ e.message)
  let lines :=
    lines ++
      (if result.warnings.length > 0 then
        ["", "⚠️  Warnings:"] ++ result.warnings.map (fun w => "  " ++ w)
      else [])
  String.intercalate "\n" lines

/-! ## Execution engine (src/executor/engine.ts) -/

/-- `ExecutionLog.status`. -/
inductive LogStatus where
  | success | error | warning
deriving DecidableEq, Repr

/-- `ExecutionLog` (timestamps abstracted away). -/
structure ExecutionLog where
  step : Nat
  action : String
  status : LogStatus
  message : String
  duration : Option Nat := none
deriving DecidableEq, Repr

/-- `ExecutionResult` from `src/executor/engine.ts` (the `errorAnalysis`
bundle is omitted: the engine's `collectedErrors` array is never pushed to,
so `errorAnalysis` is always absent in the source). -/
structure ExecutionResult where
  success : Bool
  stepsExecuted : Nat
  totalSteps : Nat
  executionTime : Nat
  screenshots : List String
  error : Option String := none
  logs : List ExecutionLog
  sessionId : Option String := none
  logFilePath : Option String := none
deriving DecidableEq, Repr

/-- Ghost trace of the engine's collaborator calls. -/
inductive EngineEvent where
  | browserInitCalled
  | errorShotCalled (stepNumber : Nat)
  | errorShotFailureLogged (stepNumber : Nat)
  | loggerCleanupCalled
  | closeBrowserCalled
deriving DecidableEq, Repr

/-- JS template interpolation of a possibly-undefined string. -/
def jsTemplateStr : Option String → String
  | some s => s
  | none => "undefined"

/-- JS template interpolation of a possibly-undefined `string | number`. -/
def jsTemplateVal : Option JsValue → String
  | some (.str s) => s
  | some (.num n) => toString n
  | none => "undefined"

/-- JS truthiness of a `string | number | undefined` value. -/
def jsTruthyVal : Option JsValue → Bool
  | some (.str s) => s != ""
  | some (.num n) => n != 0
  | none => false

/-- `getStepSummary`. -/
def getStepSummary (step : ActionStep) : String :=
  match step.type with
  | .navigate => "Navigate to " ++ jsTemplateStr step.url
  | .click => "Click " ++ jsTemplateStr step.selector
  | .typeAction =>
    "Type \"" ++ jsTemplateVal step.value ++ "\" into " ++ jsTemplateStr step.selector
  | .wait => "Wait " ++ (match step.timeout with | some t => toString t | none => "undefined") ++ "ms"
  | .screenshot => "Take screenshot"
  | .scroll =>
    "Scroll " ++ jsTemplateStr step.selector ++
      (if jsTruthyVal step.value then " by " ++ jsTemplateVal step.value ++ "px" else "")
  | .select => "Select \"" ++ jsTemplateVal step.value ++ "\" from " ++ jsTemplateStr step.selector

/-- The collaborators `executeScript` consumes, per the spec's external
interfaces: the validator's verdict, the Browser Session Provider, the
per-step action executor (indexed by step number and attempt number, the
operation the Retry Executor wraps), the best-effort error-screenshot
capture, and the Session Logger's session metadata. -/
structure Env where
  validation : ValidationResult
  browserInit : Result BrowserController
  stepExec : Nat → Nat → OpOutcome (Option String)
  errorShot : Nat → Result String
  sessionId : String
  logFilePath : String

/-- Outcome of the engine's sequential step loop. -/
inductive StepsOutcome where
  | completed (stepsExecuted : Nat) (logs : List ExecutionLog)
      (screenshots : List String) (events : List EngineEvent)
  | failedAt (result : ExecutionResult) (events : List EngineEvent)

/-- The `for` loop of `executeScript`: execute the remaining steps
sequentially, each through the Retry Executor; on a step's success push a
screenshot path for screenshot steps and a success step log; on a step's
declared failure push a failure step log, attempt one best-effort error
screenshot when enabled, call the logger cleanup and assemble the
`success = false` `ExecutionResult`.  `pagePresent` is the engine's
`browserController.page` re-check guarding the error screenshot. -/
def runSteps (env : Env) (config : AutoConfig) (pagePresent : Bool) (total : Nat) :
    List ActionStep → Nat → Nat → List ExecutionLog → List String →
    List EngineEvent → StepsOutcome
  | [], _, stepsExecuted, logs, shots, events =>
    StepsOutcome.completed stepsExecuted logs shots events
  | step :: rest, stepNumber, stepsExecuted, logs, shots, events =>
    let stepSummary := getStepSummary step
    match (executeWithSmartRetry (env.stepExec stepNumber) config
        (some step) (some stepNumber)).1 with
    | Result.success d =>
      let shots :=
        match d with
        | some s => if s ≠ "" ∧ step.type = ActionType.screenshot then shots ++ [s] else shots
        | none => shots
      let logs := logs ++
        [{ step := stepNumber, action := actionTypeValue step.type,
           status := LogStatus.success, message := stepSummary }]
      runSteps env config pagePresent total rest (stepNumber + 1)
        (stepsExecuted + 1) logs shots events
    | Result.failure err =>
      let logs := logs ++
        [{ step := stepNumber, action := actionTypeValue step.type,
           status := LogStatus.error, message := "Failed: " ++ err }]
      let shotsEvents :=
        if config.actions.screenshotOnError ∧ pagePresent = true then
          match env.errorShot stepNumber with
          | Result.success p =>
            (shots ++ [p], events ++ [EngineEvent.errorShotCalled stepNumber])
          | Result.failure _ =>
            (shots, events ++ [EngineEvent.errorShotCalled stepNumber,
              EngineEvent.errorShotFailureLogged stepNumber])
        else (shots, events)
      StepsOutcome.failedAt
        { success := false, stepsExecuted := stepsExecuted, totalSteps := total,
          executionTime := 0, screenshots := shotsEvents.1, error := some err,
          logs := logs, sessionId := some env.sessionId,
          logFilePath := some env.logFilePath }
        (shotsEvents.2 ++ [EngineEvent.loggerCleanupCalled])

/-- The `browser_cleanup` log entry that the `finally` block pushes into
the (already captured) `logs` array of the returned result. -/
def browserCleanupLog : ExecutionLog :=
  { step := 0, action := "browser_cleanup", status := LogStatus.success,
    message := "Browser closed" }

/-- The engine-level log entries accumulated before the step loop starts:
the validation-warning entry (pushed only when there are warnings and
verbose logging is on) followed by the browser-init entry. -/
def engineInitLogs (env : Env) (config : AutoConfig) : List ExecutionLog :=
  (if 0 < env.validation.warnings.length ∧ config.logging.verbose = true then
    [{ step := 0, action := "validation", status := LogStatus.warning,
       message := formatValidationResults env.validation }]
  else []) ++
  [{ step := 0, action := "browser_init", status := LogStatus.success,
     message := "Browser initialized: " ++ config.browser.type }]

/-- `executeScript`: validation → browser acquisition → sequential step
execution → result assembly, with the `finally` block closing the browser
whenever a controller was acquired.  Returns the source's
`Result<ExecutionResult>` paired with the ghost collaborator-event trace.
The per-step and top-level `catch` branches of the source are unreachable
here because the embedded retry executor is total. -/
def executeScript (script : AutomationScript) (config : AutoConfig) (env : Env) :
    Result ExecutionResult × List EngineEvent :=
  let validationResult := env.validation
  if 0 < validationResult.errors.length then
    (Result.failure ("Script validation failed:\n" ++
      formatValidationResults validationResult), [])
  else
    let events := [EngineEvent.browserInitCalled]
    match env.browserInit with
    | Result.failure e =>
      -- finally: browserController is still null, nothing to close
      (Result.failure ("Failed to initialize browser: " ++ e), events)
    | Result.success browserController =>
      if browserController.page = false then
        -- finally: the controller was acquired, so it is closed
        (Result.failure "Browser page is not available",
          events ++ [EngineEvent.closeBrowserCalled])
      else
        match runSteps env config browserController.page script.steps.length
            script.steps 1 0 (engineInitLogs env config) [] events with
        | StepsOutcome.failedAt res evs =>
          (Result.success { res with logs := res.logs ++ [browserCleanupLog] },
            evs ++ [EngineEvent.closeBrowserCalled])
        | StepsOutcome.completed stepsExecuted logs shots evs =>
          let logs := logs ++
            [{ step := 0, action := "completion", status := LogStatus.success,
               message := "Script completed successfully in 0ms" }]
          (Result.success
            { success := true, stepsExecuted := stepsExecuted,
              totalSteps := script.steps.length, executionTime := 0,
              screenshots := shots, error := none,
              logs := logs ++ [browserCleanupLog],
              sessionId := some env.sessionId,
              logFilePath := some env.logFilePath },
            evs ++ [EngineEvent.loggerCleanupCalled, EngineEvent.closeBrowserCalled])

/-! ## Concrete fixtures used by witnesses -/

/-- A concrete configuration, parameterized by the global retry budget. -/
def witnessConfig (retryAttempts : Nat) : AutoConfig :=
  { browser := { type := "chromium", headless := true, slowMo := 0, timeout := 5000 }
    actions := { waitBetweenActions := 0, retryAttempts := retryAttempts,
                 screenshotOnError := true }
    logging := { level := "info", outputDir := "./logs", saveScreenshots := true,
                 verbose := false } }

/-- A validator verdict with one structural error. -/
def invalidValidation : ValidationResult :=
  { valid := false,
    errors := [{ field := "steps", message := "Script must have at least one step" }],
    warnings := [] }

/-- An environment whose structural validation reports one error. -/
def invalidScriptEnv : Env :=
  { validation := invalidValidation,
    browserInit := Result.failure "unreached",
    stepExec := fun _ _ => OpOutcome.ret (Result.success none),
    errorShot := fun _ => Result.failure "unreached",
    sessionId := "session-1", logFilePath := "./logs/execution-session-1.log" }

/-- A healthy environment: validation passes, the browser session comes up
with all three handles, every step succeeds. -/
def healthyEnv : Env :=
  { validation := { valid := true, errors := [], warnings := [] },
    browserInit := Result.success { browser := true, context := true, page := true },
    stepExec := fun _ _ => OpOutcome.ret (Result.success none),
    errorShot := fun _ => Result.success "error.png",
    sessionId := "session-1", logFilePath := "./logs/execution-session-1.log" }

/-- An environment like `healthyEnv` where step 2 always times out. -/
def step2FailsEnv : Env :=
  { validation := { valid := true, errors := [], warnings := [] },
    browserInit := Result.success { browser := true, context := true, page := true },
    stepExec := fun stepNumber _ =>
      if stepNumber = 2 then OpOutcome.ret (Result.failure "timeout")
      else OpOutcome.ret (Result.success none),
    errorShot := fun _ => Result.success "error-step-2.png",
    sessionId := "session-1", logFilePath := "./logs/execution-session-1.log" }

/-- A three-step script: navigate, click, screenshot. -/
def threeStepScript : AutomationScript :=
  { name := "Test Script",
    steps := [{ type := ActionType.navigate, url := some "https://example.com" },
              { type := ActionType.click, selector := some "#button" },
              { type := ActionType.screenshot }] }

/-! ## Facts about the error classifier -/

/-- Every retryable classification carries a strategy allowing at least two
attempts (the only 1-attempt strategy belongs to the non-retryable
VALIDATION_ERROR kind). -/
theorem classifyError_retryable_maxAttempts (e : String) (sp : Option ActionStep)
    (sn : Option Nat) (h : (classifyError e sp sn).isRetryable = true) :
    2 ≤ (classifyError e sp sn).strategy.maxAttempts := by
  revert h
  unfold classifyError
  simp only []
  split_ifs <;> intro h <;> simp_all [DEFAULT_RETRY_STRATEGIES]

/-- A classification of kind VALIDATION_ERROR is not retryable and carries
the fixed validation message. -/
theorem classifyError_validation_facts (e : String) (sp : Option ActionStep)
    (sn : Option Nat) (h : (classifyError e sp sn).type = ErrorType.VALIDATION_ERROR) :
    (classifyError e sp sn).isRetryable = false ∧
      (classifyError e sp sn).message = "Script validation failed" := by
  revert h
  unfold classifyError
  simp only []
  split_ifs <;> intro h <;> simp_all

/-! ## Stepping lemmas for the retry loop -/

/-- One step of the retry loop: the operation returns success. -/
theorem smartRetryAux_ret_success {T : Type} (op : Nat → OpOutcome T) (budget : Nat)
    (sp : Option ActionStep) (sn : Option Nat) (fuel attempt : Nat) (d : T)
    (hop : op attempt = OpOutcome.ret (Result.success d)) :
    smartRetryAux op budget sp sn fuel attempt = (Result.success d, attempt) := by
  rw [smartRetryAux, hop]

/-- One step of the retry loop: the operation returns a declared failure
and the loop stops (not retryable, or the attempt ceiling is reached). -/
theorem smartRetryAux_ret_failure_stop {T : Type} (op : Nat → OpOutcome T) (budget : Nat)
    (sp : Option ActionStep) (sn : Option Nat) (fuel attempt : Nat) (e : String)
    (hop : op attempt = OpOutcome.ret (Result.failure e))
    (hstop : ¬((classifyError e sp sn).isRetryable = true ∧
        attempt < min (classifyError e sp sn).strategy.maxAttempts budget)) :
    smartRetryAux op budget sp sn fuel attempt =
      (Result.failure (retryFailureMessage (classifyError e sp sn) attempt), attempt) := by
  rw [smartRetryAux, hop]
  simp only []
  rw [if_neg hstop]

/-- One step of the retry loop: the operation returns a declared retryable
failure below the attempt ceiling, so the loop retries. -/
theorem smartRetryAux_ret_failure_step {T : Type} (op : Nat → OpOutcome T) (budget : Nat)
    (sp : Option ActionStep) (sn : Option Nat) (fuel attempt : Nat) (e : String)
    (hop : op attempt = OpOutcome.ret (Result.failure e))
    (hcont : (classifyError e sp sn).isRetryable = true ∧
        attempt < min (classifyError e sp sn).strategy.maxAttempts budget) :
    smartRetryAux op budget sp sn (fuel + 1) attempt =
      smartRetryAux op budget sp sn fuel (attempt + 1) := by
  rw [smartRetryAux, hop]
  simp only []
  rw [if_pos hcont]

/-- The invocation count returned by the retry loop never falls below the
attempt number it started from. -/
theorem smartRetryAux_attempt_le {T : Type} (op : Nat → OpOutcome T) (budget : Nat)
    (sp : Option ActionStep) (sn : Option Nat) :
    ∀ (fuel attempt : Nat), attempt ≤ (smartRetryAux op budget sp sn fuel attempt).2 := by
  intro fuel
  induction fuel with
  | zero =>
    intro attempt
    rw [smartRetryAux]
    cases hop : op attempt with
    | thrown e => simp
    | ret r =>
      cases r with
      | success d => simp
      | failure e =>
        simp only []
        split
        · simp
        · simp
  | succ f ih =>
    intro attempt
    rw [smartRetryAux]
    cases hop : op attempt with
    | thrown e => simp
    | ret r =>
      cases r with
      | success d => simp
      | failure e =>
        simp only []
        split
        · exact le_trans (Nat.le_succ attempt) (ih (attempt + 1))
        · simp

/-! ## Claims about the retry executor -/

/-- Claim C2: an operation that always returns a declared failure whose
message classifies as retryable, run under a global retry budget of 2, is
invoked exactly 2 times, and the returned failure message is the classified
human message followed by the kind and "attempted 2 times". -/
theorem executeWithSmartRetry_retryable_budget_two {T : Type}
    (e : String) (sp : Option ActionStep) (sn : Option Nat) (config : AutoConfig)
    (hbudget : config.actions.retryAttempts = 2)
    (hretry : (classifyError e sp sn).isRetryable = true) :
    executeWithSmartRetry (fun _ => OpOutcome.ret (Result.failure e) : Nat → OpOutcome T)
        config sp sn =
      (Result.failure ((classifyError e sp sn).message ++ " (" ++
        errorTypeValue (classifyError e sp sn).type ++ ", attempted 2 times)"), 2) := by
  have hM := classifyError_retryable_maxAttempts e sp sn hretry
  have hmin : min (classifyError e sp sn).strategy.maxAttempts 2 = 2 := min_eq_right hM
  have h1 : smartRetryAux (fun _ => OpOutcome.ret (Result.failure e) : Nat → OpOutcome T)
        2 sp sn (1 + 1) 1
      = smartRetryAux (fun _ => OpOutcome.ret (Result.failure e)) 2 sp sn 1 (1 + 1) :=
    smartRetryAux_ret_failure_step _ 2 sp sn 1 1 e rfl ⟨hretry, by rw [hmin]; omega⟩
  have h2 : smartRetryAux (fun _ => OpOutcome.ret (Result.failure e) : Nat → OpOutcome T)
        2 sp sn 1 (1 + 1)
      = (Result.failure (retryFailureMessage (classifyError e sp sn) 2), 2) :=
    smartRetryAux_ret_failure_stop _ 2 sp sn 1 2 e rfl (by simp [hmin])
  unfold executeWithSmartRetry
  rw [hbudget]
  have hfin := h1.trans h2
  have hmsg : retryFailureMessage (classifyError e sp sn) 2 =
      (classifyError e sp sn).message ++ " (" ++
        errorTypeValue (classifyError e sp sn).type ++ ", attempted 2 times)" := by
    unfold retryFailureMessage
    simp only [String.append_assoc]
    rfl
  rw [hmsg] at hfin
  exact hfin

/-- Witness for C2 at the concrete input "timeout" with budget 2. -/
theorem executeWithSmartRetry_retryable_budget_two_witness :
    ((witnessConfig 2).actions.retryAttempts = 2 ∧
      (classifyError "timeout" none none).isRetryable = true) ∧
    executeWithSmartRetry
        (fun _ => OpOutcome.ret (Result.failure "timeout") : Nat → OpOutcome Unit)
        (witnessConfig 2) none none =
      (Result.failure ((classifyError "timeout" none none).message ++ " (" ++
        errorTypeValue (classifyError "timeout" none none).type ++
        ", attempted 2 times)"), 2) :=
  ⟨⟨rfl, by decide⟩,
    executeWithSmartRetry_retryable_budget_two "timeout" none none (witnessConfig 2)
      rfl (by decide)⟩

/-- Claim C4: an operation whose declared failure message classifies as a
validation error is invoked exactly once regardless of a global retry
budget larger than 1, because the classification is not retryable. -/
theorem executeWithSmartRetry_validation_single_attempt {T : Type}
    (e : String) (sp : Option ActionStep) (sn : Option Nat) (config : AutoConfig)
    (hbudget : 1 < config.actions.retryAttempts)
    (hval : (classifyError e sp sn).type = ErrorType.VALIDATION_ERROR) :
    executeWithSmartRetry (fun _ => OpOutcome.ret (Result.failure e) : Nat → OpOutcome T)
        config sp sn =
      (Result.failure "Script validation failed (validation_error, attempted 1 times)",
        1) := by
  obtain ⟨hret, hmsg⟩ := classifyError_validation_facts e sp sn hval
  unfold executeWithSmartRetry
  rw [smartRetryAux_ret_failure_stop _ _ sp sn _ 1 e rfl (by simp [hret])]
  unfold retryFailureMessage
  rw [hmsg, hval]
  rfl

/-- Witness for C4 at the concrete input "invalid value" with budget 3. -/
theorem executeWithSmartRetry_validation_single_attempt_witness :
    (1 < (witnessConfig 3).actions.retryAttempts ∧
      (classifyError "invalid value" none none).type = ErrorType.VALIDATION_ERROR) ∧
    executeWithSmartRetry
        (fun _ => OpOutcome.ret (Result.failure "invalid value") : Nat → OpOutcome Unit)
        (witnessConfig 3) none none =
      (Result.failure "Script validation failed (validation_error, attempted 1 times)",
        1) :=
  ⟨⟨by decide, by decide⟩,
    executeWithSmartRetry_validation_single_attempt "invalid value" none none
      (witnessConfig 3) (by decide) (by decide)⟩

/-- Claim C10: the operation is invoked at least once for every input
(every operation, every configuration, hence every retry budget), and with
a global retry budget of at most 1 a failing operation is invoked exactly
once and the failure message reports "attempted 1 times". -/
theorem executeWithSmartRetry_at_least_once {T : Type}
    (e : String) (sp : Option ActionStep) (sn : Option Nat) (config : AutoConfig)
    (hbudget : config.actions.retryAttempts ≤ 1) :
    (∀ (U : Type) (op : Nat → OpOutcome U) (cfg : AutoConfig) (sp2 : Option ActionStep)
      (sn2 : Option Nat), 1 ≤ (executeWithSmartRetry op cfg sp2 sn2).2) ∧
    executeWithSmartRetry (fun _ => OpOutcome.ret (Result.failure e) : Nat → OpOutcome T)
        config sp sn =
      (Result.failure ((classifyError e sp sn).message ++ " (" ++
        errorTypeValue (classifyError e sp sn).type ++ ", attempted 1 times)"), 1) := by
  constructor
  · intro U op cfg sp2 sn2
    exact smartRetryAux_attempt_le op _ sp2 sn2 _ 1
  · unfold executeWithSmartRetry
    rw [smartRetryAux_ret_failure_stop _ _ sp sn _ 1 e rfl (by
      intro hc
      have h2 := hc.2
      have h3 : min (classifyError e sp sn).strategy.maxAttempts
          config.actions.retryAttempts ≤ config.actions.retryAttempts :=
        min_le_right _ _
      omega)]
    have hmsg : retryFailureMessage (classifyError e sp sn) 1 =
        (classifyError e sp sn).message ++ " (" ++
          errorTypeValue (classifyError e sp sn).type ++ ", attempted 1 times)" := by
      unfold retryFailureMessage
      simp only [String.append_assoc]
      rfl
    rw [hmsg]

/-- Witness for C10 at the concrete input "timeout" with budget 0. -/
theorem executeWithSmartRetry_at_least_once_witness :
    (witnessConfig 0).actions.retryAttempts ≤ 1 ∧
    executeWithSmartRetry
        (fun _ => OpOutcome.ret (Result.failure "timeout") : Nat → OpOutcome Unit)
        (witnessConfig 0) none none =
      (Result.failure ((classifyError "timeout" none none).message ++ " (" ++
        errorTypeValue (classifyError "timeout" none none).type ++
        ", attempted 1 times)"), 1) :=
  ⟨by decide,
    (executeWithSmartRetry_at_least_once "timeout" none none (witnessConfig 0)
      (by decide)).2⟩

/-! ## Claims about the error classifier -/

/-- Claim C8: `calculateRetryDelay` follows the backoff formulas for every
attempt number n with 1 ≤ n. -/
theorem calculateRetryDelay_backoff (strategy : RetryStrategy) (n : Nat) (h : 1 ≤ n) :
    (strategy.backoff = Backoff.exponential →
      calculateRetryDelay strategy n = strategy.delay * 2 ^ (n - 1)) ∧
    (strategy.backoff = Backoff.linear →
      calculateRetryDelay strategy n = strategy.delay * n) ∧
    (strategy.backoff = Backoff.fixed →
      calculateRetryDelay strategy n = strategy.delay) := by
  unfold calculateRetryDelay
  rcases strategy with ⟨m, d, b⟩
  cases b <;> simp

/-- Witness for C8 at a concrete exponential strategy and attempt 3. -/
theorem calculateRetryDelay_backoff_witness :
    (1 ≤ 3) ∧
    (({ maxAttempts := 3, delay := 1000, backoff := Backoff.exponential } :
        RetryStrategy).backoff = Backoff.exponential →
      calculateRetryDelay
          { maxAttempts := 3, delay := 1000, backoff := Backoff.exponential } 3
        = 1000 * 2 ^ (3 - 1)) :=
  ⟨by decide,
    (calculateRetryDelay_backoff
      { maxAttempts := 3, delay := 1000, backoff := Backoff.exponential } 3
      (by decide)).1⟩

/-- Claim C3, amended: a raw error string containing "timeout"
(case-insensitively) classifies as TIMEOUT_ERROR with isRetryable = true
provided it contains neither an element-not-found marker nor any
network marker — the network pattern group is checked first, so a network
marker preempts the timeout classification. -/
theorem classifyError_timeout_retryable (e : String) (sp : Option ActionStep)
    (sn : Option Nat)
    (htimeout : strIncludes (strToLower e) "timeout" = true)
    (hnf1 : strIncludes (strToLower e) "no element" = false)
    (hnf2 : strIncludes (strToLower e) "not found" = false)
    (hnf3 : strIncludes (strToLower e) "cannot find" = false)
    (hnf4 : strIncludes (strToLower e) "element not found" = false)
    (hnet1 : strIncludes (strToLower e) "net::" = false)
    (hnet2 : strIncludes (strToLower e) "network" = false)
    (hnet3 : strIncludes (strToLower e) "connection" = false)
    (hnet4 : strIncludes (strToLower e) "dns" = false)
    (hnet5 : strIncludes (strToLower e) "refused" = false) :
    (classifyError e sp sn).type = ErrorType.TIMEOUT_ERROR ∧
      (classifyError e sp sn).isRetryable = true := by
  unfold classifyError
  simp only []
  simp [htimeout, hnet1, hnet2, hnet3, hnet4, hnet5]

/-- Witness for the amended C3 at the concrete input "timeout". -/
theorem classifyError_timeout_retryable_witness :
    strIncludes (strToLower "timeout") "timeout" = true ∧
    ((classifyError "timeout" none none).type = ErrorType.TIMEOUT_ERROR ∧
      (classifyError "timeout" none none).isRetryable = true) :=
  ⟨by decide,
    classifyError_timeout_retryable "timeout" none none (by decide) (by decide)
      (by decide) (by decide) (by decide) (by decide) (by decide) (by decide)
      (by decide) (by decide)⟩

/-- Counterexample to claim C3 as stated: "connection timeout" contains
"timeout" and no element-not-found marker, yet it classifies as
NETWORK_ERROR, not TIMEOUT_ERROR, because the network patterns are checked
first. -/
theorem classifyError_timeout_claim_counterexample :
    strIncludes (strToLower "connection timeout") "timeout" = true ∧
    strIncludes (strToLower "connection timeout") "no element" = false ∧
    strIncludes (strToLower "connection timeout") "not found" = false ∧
    strIncludes (strToLower "connection timeout") "cannot find" = false ∧
    strIncludes (strToLower "connection timeout") "element not found" = false ∧
    (classifyError "connection timeout" none none).type = ErrorType.NETWORK_ERROR ∧
    ¬((classifyError "connection timeout" none none).type = ErrorType.TIMEOUT_ERROR) := by
  decide

/-! ## Claims about the session logger -/

/-- Claim C7: a logger configured at minimum severity "info" drops a
debug-level emission entirely (no console write, no file write, no state
change) while an info-, warn- or error-level emission is written to both
the console sink and the file sink. -/
theorem logger_info_level_filtering (autoConfig : AutoConfig)
    (hlevel : autoConfig.logging.level = "info")
    (st : LoggerState) (lv : LogLevel) (category message : String)
    (data : Option String) (step : Option Nat) (duration : Option Nat) (timestamp : Nat) :
    (lv = LogLevel.DEBUG →
      Logger.log (createLoggerConfig autoConfig) st lv category message data step duration
          timestamp
        = st) ∧
    (lv ≠ LogLevel.DEBUG →
      (Logger.log (createLoggerConfig autoConfig) st lv category message data step duration
          timestamp).consoleWrites
        = st.consoleWrites ++ [{ timestamp := timestamp, level := lv, category := category,
                                 message := message, data := data, step := step,
                                 duration := duration }] ∧
      (Logger.log (createLoggerConfig autoConfig) st lv category message data step duration
          timestamp).fileWrites
        = st.fileWrites ++ [{ timestamp := timestamp, level := lv, category := category,
                              message := message, data := data, step := step,
                              duration := duration }]) := by
  have hcfg : createLoggerConfig autoConfig =
      { level := LogLevel.INFO, outputDir := autoConfig.logging.outputDir,
        enableFileLogging := true, enableConsoleLogging := true, format := .structured,
        maxFileSize := 50, maxFiles := 10, includeTimestamp := true,
        includeStackTrace := false } := by
    unfold createLoggerConfig
    rw [hlevel]
    rfl
  rw [hcfg]
  constructor
  · intro hdbg
    subst hdbg
    unfold Logger.log
    simp [LogLevel.val]
  · intro hne
    cases lv with
    | DEBUG => exact absurd rfl hne
    | INFO => unfold Logger.log; simp [LogLevel.val]
    | WARN => unfold Logger.log; simp [LogLevel.val]
    | ERROR => unfold Logger.log; simp [LogLevel.val]

/-- Witness for C7 at a concrete configuration and the DEBUG level. -/
theorem logger_info_level_filtering_witness :
    (witnessConfig 3).logging.level = "info" ∧
    (LogLevel.DEBUG = LogLevel.DEBUG →
      Logger.log (createLoggerConfig (witnessConfig 3)) {} LogLevel.DEBUG "debug" "msg"
          none none none 0
        = {}) :=
  ⟨rfl,
    (logger_info_level_filtering (witnessConfig 3) rfl {} LogLevel.DEBUG "debug" "msg"
      none none none 0).1⟩

/-- Claim C9: an emission below the configured minimum severity leaves the
logger state untouched — in particular the in-memory buffer, the session
summary (total and per-level counts, duration) and the execution timeline
are all unchanged. -/
theorem logger_below_threshold_not_buffered (config : LoggerConfig) (st : LoggerState)
    (lv : LogLevel) (category message : String) (data : Option String)
    (step : Option Nat) (duration : Option Nat) (timestamp : Nat)
    (sessionId logFilePath : String)
    (h : lv.val < config.level.val) :
    Logger.log config st lv category message data step duration timestamp = st ∧
    (Logger.log config st lv category message data step duration timestamp).logBuffer
      = st.logBuffer ∧
    Logger.getSessionSummary sessionId logFilePath
        (Logger.log config st lv category message data step duration timestamp)
      = Logger.getSessionSummary sessionId logFilePath st ∧
    Logger.getExecutionTimeline
        (Logger.log config st lv category message data step duration timestamp)
      = Logger.getExecutionTimeline st := by
  have hid : Logger.log config st lv category message data step duration timestamp = st := by
    unfold Logger.log
    rw [if_pos h]
  exact ⟨hid, by rw [hid], by rw [hid], by rw [hid]⟩

/-- Witness for C9: a DEBUG emission against an INFO-threshold config. -/
theorem logger_below_threshold_not_buffered_witness :
    LogLevel.DEBUG.val < (createLoggerConfig (witnessConfig 3)).level.val ∧
    Logger.log (createLoggerConfig (witnessConfig 3)) {} LogLevel.DEBUG "debug" "msg"
        none none none 0
      = {} :=
  ⟨by decide,
    (logger_below_threshold_not_buffered (createLoggerConfig (witnessConfig 3)) {}
      LogLevel.DEBUG "debug" "msg" none none none 0 "s" "p" (by decide)).1⟩

/-! ## Claims about the execution engine -/

/-- Claim C5: when structural validation reports at least one error,
executeScript returns a function-level failure and the Browser Session
Provider is never invoked. -/
theorem executeScript_validation_failure_no_browser (script : AutomationScript)
    (config : AutoConfig) (env : Env)
    (h : 0 < env.validation.errors.length) :
    (∃ m, (executeScript script config env).1 = Result.failure m) ∧
    EngineEvent.browserInitCalled ∉ (executeScript script config env).2 := by
  unfold executeScript
  simp only []
  rw [if_pos h]
  exact ⟨⟨_, rfl⟩, by simp⟩

/-- Witness for C5 on a concrete environment with a failing validation. -/
theorem executeScript_validation_failure_no_browser_witness :
    0 < invalidScriptEnv.validation.errors.length ∧
    ((∃ m, (executeScript threeStepScript (witnessConfig 3) invalidScriptEnv).1
        = Result.failure m) ∧
      EngineEvent.browserInitCalled ∉
        (executeScript threeStepScript (witnessConfig 3) invalidScriptEnv).2) :=
  ⟨by decide,
    executeScript_validation_failure_no_browser threeStepScript (witnessConfig 3)
      invalidScriptEnv (by decide)⟩

/-- The step loop records the logger cleanup call whenever it stops with a
failed-step outcome. -/
theorem runSteps_failedAt_cleanup (env : Env) (config : AutoConfig) (pagePresent : Bool)
    (total : Nat) :
    ∀ (steps : List ActionStep) (n se : Nat) (logs : List ExecutionLog)
      (shots : List String) (events : List EngineEvent) (res : ExecutionResult)
      (evs : List EngineEvent),
      runSteps env config pagePresent total steps n se logs shots events
        = StepsOutcome.failedAt res evs →
      EngineEvent.loggerCleanupCalled ∈ evs := by
  intro steps
  induction steps with
  | nil =>
    intro n se logs shots events res evs h
    rw [runSteps] at h
    cases h
  | cons st rest ih =>
    intro n se logs shots events res evs h
    rw [runSteps] at h
    cases hres : (executeWithSmartRetry (env.stepExec n) config (some st) (some n)).1 with
    | success d =>
      rw [hres] at h
      simp only [] at h
      exact ih _ _ _ _ _ _ _ h
    | failure err =>
      rw [hres] at h
      simp only [] at h
      injection h with h1 h2
      rw [← h2]
      simp

/-- Evaluation of executeScript on the step-failure path. -/
theorem executeScript_of_failedAt (script : AutomationScript) (config : AutoConfig)
    (env : Env) (ctrl : BrowserController)
    (hval : env.validation.errors = [])
    (hinit : env.browserInit = Result.success ctrl)
    (hpage : ctrl.page = true)
    (res : ExecutionResult) (evs : List EngineEvent)
    (hrun : runSteps env config true script.steps.length script.steps 1 0
        (engineInitLogs env config) [] [EngineEvent.browserInitCalled]
      = StepsOutcome.failedAt res evs) :
    executeScript script config env =
      (Result.success { res with logs := res.logs ++ [browserCleanupLog] },
        evs ++ [EngineEvent.closeBrowserCalled]) := by
  unfold executeScript
  simp only []
  rw [hval]
  rw [if_neg (by simp)]
  rw [hinit]
  simp only []
  rw [hpage]
  rw [if_neg (by simp)]
  rw [hrun]

/-- Evaluation of executeScript on the all-steps-succeeded path. -/
theorem executeScript_of_completed (script : AutomationScript) (config : AutoConfig)
    (env : Env) (ctrl : BrowserController)
    (hval : env.validation.errors = [])
    (hinit : env.browserInit = Result.success ctrl)
    (hpage : ctrl.page = true)
    (se : Nat) (logs : List ExecutionLog) (shots : List String) (evs : List EngineEvent)
    (hrun : runSteps env config true script.steps.length script.steps 1 0
        (engineInitLogs env config) [] [EngineEvent.browserInitCalled]
      = StepsOutcome.completed se logs shots evs) :
    executeScript script config env =
      (Result.success
        { success := true, stepsExecuted := se, totalSteps := script.steps.length,
          executionTime := 0, screenshots := shots, error := none,
          logs := (logs ++ [{ step := 0, action := "completion",
                              status := LogStatus.success,
                              message := "Script completed successfully in 0ms" }])
            ++ [browserCleanupLog],
          sessionId := some env.sessionId, logFilePath := some env.logFilePath },
        evs ++ [EngineEvent.loggerCleanupCalled, EngineEvent.closeBrowserCalled]) := by
  unfold executeScript
  simp only []
  rw [hval]
  rw [if_neg (by simp)]
  rw [hinit]
  simp only []
  rw [hpage]
  rw [if_neg (by simp)]
  rw [hrun]

/-- Claim C6, amended: the finalizer closes the browser session on every
exit path on which a session was acquired, and the logger cleanup runs on
the in-run exit paths (step failure or completion); closeBrowser closes
page, context, browser in that order inside a single guard, so the first
throwing close aborts the remaining closes and yields a failure Result,
which the engine discards. -/
theorem teardown_behaviour (script : AutomationScript) (config : AutoConfig) (env : Env)
    (ctrl : BrowserController) (beh : CloseBehavior) (e : String)
    (hval : env.validation.errors = [])
    (hinit : env.browserInit = Result.success ctrl) :
    EngineEvent.closeBrowserCalled ∈ (executeScript script config env).2 ∧
    (ctrl.page = true →
      EngineEvent.loggerCleanupCalled ∈ (executeScript script config env).2) ∧
    (beh.pageClose = none → beh.contextClose = none → beh.browserClose = none →
      closeBrowser { browser := true, context := true, page := true } beh =
        (Result.success (),
          [CloseEvent.pageClosed, CloseEvent.contextClosed, CloseEvent.browserClosed])) ∧
    (beh.pageClose = some e →
      closeBrowser { browser := true, context := true, page := true } beh =
        (Result.failure ("Failed to close browser: " ++ e), [])) := by
  refine ⟨?_, ?_, ?_, ?_⟩
  · cases hpage : ctrl.page with
    | false =>
      unfold executeScript
      simp only []
      rw [hval]
      rw [if_neg (by simp)]
      rw [hinit]
      simp only []
      rw [hpage]
      rw [if_pos rfl]
      simp
    | true =>
      cases hout : runSteps env config true script.steps.length script.steps 1 0
          (engineInitLogs env config) [] [EngineEvent.browserInitCalled] with
      | completed se logs shots evs =>
        rw [executeScript_of_completed script config env ctrl hval hinit hpage
          se logs shots evs hout]
        simp
      | failedAt res evs =>
        rw [executeScript_of_failedAt script config env ctrl hval hinit hpage
          res evs hout]
        simp
  · intro hpage
    cases hout : runSteps env config true script.steps.length script.steps 1 0
        (engineInitLogs env config) [] [EngineEvent.browserInitCalled] with
    | completed se logs shots evs =>
      rw [executeScript_of_completed script config env ctrl hval hinit hpage
        se logs shots evs hout]
      simp
    | failedAt res evs =>
      rw [executeScript_of_failedAt script config env ctrl hval hinit hpage
        res evs hout]
      have hmem := runSteps_failedAt_cleanup env config true script.steps.length
        script.steps 1 0 (engineInitLogs env config) [] [EngineEvent.browserInitCalled]
        res evs hout
      simp only []
      exact List.mem_append_left _ hmem
  · intro h1 h2 h3
    unfold closeBrowser
    rw [h1, h2, h3]
    rfl
  · intro h1
    unfold closeBrowser
    rw [h1]
    rfl

/-- Witness for the amended C6 on a concrete healthy environment. -/
theorem teardown_behaviour_witness :
    (healthyEnv.validation.errors = [] ∧
      healthyEnv.browserInit
        = Result.success { browser := true, context := true, page := true }) ∧
    EngineEvent.closeBrowserCalled ∈
      (executeScript threeStepScript (witnessConfig 3) healthyEnv).2 :=
  ⟨⟨rfl, rfl⟩,
    (teardown_behaviour threeStepScript (witnessConfig 3) healthyEnv
      { browser := true, context := true, page := true } {} "x" rfl rfl).1⟩

/-- Counterexample to claim C6 as stated: on the validation-failure exit
path the Session Logger cleanup is never called, and a throwing page close
blocks the context and browser closes (the three closes share one
try/catch). -/
theorem teardown_claim_counterexample :
    EngineEvent.loggerCleanupCalled ∉
      (executeScript threeStepScript (witnessConfig 3) invalidScriptEnv).2 ∧
    closeBrowser { browser := true, context := true, page := true }
        { pageClose := some "boom", contextClose := none, browserClose := none } =
      (Result.failure "Failed to close browser: boom", []) ∧
    CloseEvent.contextClosed ∉
      (closeBrowser { browser := true, context := true, page := true }
        { pageClose := some "boom", contextClose := none, browserClose := none }).2 ∧
    CloseEvent.browserClosed ∉
      (closeBrowser { browser := true, context := true, page := true }
        { pageClose := some "boom", contextClose := none, browserClose := none }).2 := by
  decide

/-- A run of consecutive steps whose retry-wrapped executions all succeed
advances the loop past them, incrementing the step counter once per step
and leaving the event trace unchanged. -/
theorem runSteps_prefix_success (env : Env) (config : AutoConfig) (pagePresent : Bool)
    (total : Nat) (pre post : List ActionStep) :
    ∀ (n se : Nat) (logs : List ExecutionLog) (shots : List String)
      (events : List EngineEvent),
    (∀ (j : Nat) (st : ActionStep), pre[j]? = some st →
      ∃ d, (executeWithSmartRetry (env.stepExec (n + j)) config (some st)
        (some (n + j))).1 = Result.success d) →
    ∃ logs2 shots2,
      runSteps env config pagePresent total (pre ++ post) n se logs shots events =
        runSteps env config pagePresent total post (n + pre.length) (se + pre.length)
          logs2 shots2 events := by
  induction pre with
  | nil =>
    intro n se logs shots events _
    exact ⟨logs, shots, by simp⟩
  | cons st rest ih =>
    intro n se logs shots events h
    obtain ⟨d, hd⟩ := h 0 st (by simp)
    rw [Nat.add_zero] at hd
    rw [List.cons_append, runSteps]
    rw [hd]
    simp only []
    have h' : ∀ (j : Nat) (stj : ActionStep), rest[j]? = some stj →
        ∃ d, (executeWithSmartRetry (env.stepExec ((n + 1) + j)) config (some stj)
          (some ((n + 1) + j))).1 = Result.success d := by
      intro j stj hj
      have hh := h (j + 1) stj (by simpa using hj)
      rwa [show n + (j + 1) = (n + 1) + j by omega] at hh
    have harith1 : n + (st :: rest).length = (n + 1) + rest.length := by
      simp
      omega
    have harith2 : se + (st :: rest).length = (se + 1) + rest.length := by
      simp
      omega
    rw [harith1, harith2]
    exact ih (n + 1) (se + 1) _ _ events h'

/-- A step whose retry-wrapped execution returns a declared failure makes
the loop stop with a success-false result carrying the failure message, the
error-screenshot behaviour, and the logger cleanup call. -/
theorem runSteps_head_failure (env : Env) (config : AutoConfig) (pagePresent : Bool)
    (total : Nat) (st : ActionStep) (rest : List ActionStep) (n se : Nat)
    (logs : List ExecutionLog) (shots : List String) (events : List EngineEvent)
    (msg : String)
    (hfail : (executeWithSmartRetry (env.stepExec n) config (some st) (some n)).1
      = Result.failure msg) :
    ∃ shots2 evs2,
      runSteps env config pagePresent total (st :: rest) n se logs shots events =
        StepsOutcome.failedAt
          { success := false, stepsExecuted := se, totalSteps := total,
            executionTime := 0, screenshots := shots2, error := some msg,
            logs := logs ++ [{ step := n, action := actionTypeValue st.type,
                               status := LogStatus.error,
                               message := "Failed: " ++ msg }],
            sessionId := some env.sessionId, logFilePath := some env.logFilePath }
          evs2 ∧
      EngineEvent.loggerCleanupCalled ∈ evs2 ∧
      (config.actions.screenshotOnError = true → pagePresent = true →
        (∀ p, env.errorShot n = Result.success p → p ∈ shots2) ∧
        (∀ em, env.errorShot n = Result.failure em →
          EngineEvent.errorShotFailureLogged n ∈ evs2)) := by
  rw [runSteps, hfail]
  simp only []
  by_cases hc : config.actions.screenshotOnError = true ∧ pagePresent = true
  · rw [if_pos hc]
    cases hshot : env.errorShot n with
    | success p =>
      simp only []
      refine ⟨shots ++ [p], _, rfl, by simp, ?_⟩
      intro _ _
      constructor
      · intro q hq
        injection hq with hq1
        simp [hq1]
      · intro em hem
        exact Result.noConfusion hem
    | failure em =>
      simp only []
      refine ⟨shots, _, rfl, by simp, ?_⟩
      intro _ _
      constructor
      · intro q hq
        exact Result.noConfusion hq
      · intro em2 hem
        simp
  · rw [if_neg hc]
    refine ⟨shots, _, rfl, by simp, ?_⟩
    intro h1 h2
    exact absurd ⟨h1, h2⟩ hc

/-- Claim C1: when step K (1-based) is the first step whose retry-wrapped
execution returns a declared failure, executeScript returns a
function-level success wrapping an ExecutionResult with success = false,
stepsExecuted = K - 1, totalSteps = the script's step count, error = the
retry-exhausted message; when screenshot-on-error is enabled a successful
best-effort capture appears in the screenshots list, and a failed capture
is logged (recorded in the event trace) without changing the returned
result. -/
theorem executeScript_step_failure_result
    (script : AutomationScript) (config : AutoConfig) (env : Env)
    (ctrl : BrowserController) (K : Nat) (msg : String) (stK : ActionStep)
    (hval : env.validation.errors = [])
    (hinit : env.browserInit = Result.success ctrl)
    (hpage : ctrl.page = true)
    (hK : 1 ≤ K)
    (hstK : script.steps[K - 1]? = some stK)
    (hpre : ∀ (j : Nat) (st : ActionStep), j + 1 < K → script.steps[j]? = some st →
      ∃ d, (executeWithSmartRetry (env.stepExec (j + 1)) config (some st)
        (some (j + 1))).1 = Result.success d)
    (hfail : (executeWithSmartRetry (env.stepExec K) config (some stK) (some K)).1
      = Result.failure msg) :
    ∃ r : ExecutionResult,
      (executeScript script config env).1 = Result.success r ∧
      r.success = false ∧
      r.stepsExecuted = K - 1 ∧
      r.totalSteps = script.steps.length ∧
      r.error = some msg ∧
      (config.actions.screenshotOnError = true →
        (∀ p, env.errorShot K = Result.success p → p ∈ r.screenshots) ∧
        (∀ em, env.errorShot K = Result.failure em →
          EngineEvent.errorShotFailureLogged K ∈ (executeScript script config env).2)) ∧
      EngineEvent.loggerCleanupCalled ∈ (executeScript script config env).2 := by
  have hKlen : K - 1 < script.steps.length := (List.getElem?_eq_some.mp hstK).1
  have hgetval : script.steps[K - 1] = stK := (List.getElem?_eq_some.mp hstK).2
  have hdecomp : script.steps
      = script.steps.take (K - 1) ++ (stK :: script.steps.drop K) := by
    have h1 : script.steps.drop (K - 1)
        = script.steps[K - 1] :: script.steps.drop (K - 1 + 1) :=
      List.drop_eq_getElem_cons hKlen
    rw [show K - 1 + 1 = K by omega, hgetval] at h1
    rw [← h1]
    exact (List.take_append_drop _ _).symm
  have hpreLen : (script.steps.take (K - 1)).length = K - 1 := by
    rw [List.length_take]
    omega
  obtain ⟨logs2, shots2, hskip⟩ := runSteps_prefix_success env config true
    script.steps.length (script.steps.take (K - 1)) (stK :: script.steps.drop K)
    1 0 (engineInitLogs env config) [] [EngineEvent.browserInitCalled]
    (by
      intro j st hj
      have hjlt : j < K - 1 := by
        have hl := (List.getElem?_eq_some.mp hj).1
        rw [List.length_take] at hl
        omega
      have hj' : script.steps[j]? = some st := by
        rwa [List.getElem?_take_of_lt hjlt] at hj
      have hh := hpre j st (by omega) hj'
      rwa [show 1 + j = j + 1 by omega])
  rw [hpreLen] at hskip
  rw [show 1 + (K - 1) = K by omega, show 0 + (K - 1) = K - 1 by omega] at hskip
  obtain ⟨shots3, evs3, hrun, hclean, hshotfacts⟩ := runSteps_head_failure env config true
    script.steps.length stK (script.steps.drop K) K (K - 1) logs2 shots2
    [EngineEvent.browserInitCalled] msg hfail
  have hfull : runSteps env config true script.steps.length script.steps 1 0
      (engineInitLogs env config) [] [EngineEvent.browserInitCalled]
      = StepsOutcome.failedAt
        { success := false, stepsExecuted := K - 1, totalSteps := script.steps.length,
          executionTime := 0, screenshots := shots3, error := some msg,
          logs := logs2 ++ [{ step := K, action := actionTypeValue stK.type,
                              status := LogStatus.error,
                              message := "Failed: " ++ msg }],
          sessionId := some env.sessionId, logFilePath := some env.logFilePath }
        evs3 := by
    have hc := congrArg
      (fun l => runSteps env config true script.steps.length l 1 0
        (engineInitLogs env config) [] [EngineEvent.browserInitCalled]) hdecomp
    simp only [] at hc
    rw [hc, hskip, hrun]
  have hexec := executeScript_of_failedAt script config env ctrl hval hinit hpage _ evs3 hfull
  rw [hexec]
  simp only []
  refine ⟨_, rfl, rfl, rfl, rfl, rfl, ?_, ?_⟩
  · intro hso
    obtain ⟨hA, hB⟩ := hshotfacts hso rfl
    constructor
    · intro p hp
      exact hA p hp
    · intro em hem
      exact List.mem_append_left _ (hB em hem)
  · exact List.mem_append_left _ hclean

/-- Witness for C1: a three-step script whose second step always times
out, run with budget 3 and screenshot-on-error enabled. -/
theorem executeScript_step_failure_result_witness :
    (step2FailsEnv.validation.errors = [] ∧
      (executeWithSmartRetry (step2FailsEnv.stepExec 2) (witnessConfig 3)
        (some { type := ActionType.click, selector := some "#button" }) (some 2)).1
        = Result.failure "Operation timed out (timeout_error, attempted 3 times)") ∧
    (∃ r : ExecutionResult,
      (executeScript threeStepScript (witnessConfig 3) step2FailsEnv).1
        = Result.success r ∧
      r.success = false ∧
      r.stepsExecuted = 2 - 1 ∧
      r.totalSteps = threeStepScript.steps.length ∧
      r.error = some "Operation timed out (timeout_error, attempted 3 times)" ∧
      ((witnessConfig 3).actions.screenshotOnError = true →
        (∀ p, step2FailsEnv.errorShot 2 = Result.success p → p ∈ r.screenshots) ∧
        (∀ em, step2FailsEnv.errorShot 2 = Result.failure em →
          EngineEvent.errorShotFailureLogged 2 ∈
            (executeScript threeStepScript (witnessConfig 3) step2FailsEnv).2)) ∧
      EngineEvent.loggerCleanupCalled ∈
        (executeScript threeStepScript (witnessConfig 3) step2FailsEnv).2) :=
  ⟨⟨rfl, by decide⟩,
    executeScript_step_failure_result threeStepScript (witnessConfig 3) step2FailsEnv
      { browser := true, context := true, page := true } 2
      "Operation timed out (timeout_error, attempted 3 times)"
      { type := ActionType.click, selector := some "#button" }
      rfl rfl rfl (by decide) (by decide)
      (by
        intro j st hj hst
        have hj0 : j = 0 := by omega
        subst hj0
        have hstv : st = { type := ActionType.navigate, url := some "https://example.com" } := by
          simp [threeStepScript] at hst
          exact hst.symm
        subst hstv
        exact ⟨none, by decide⟩)
      (by decide)⟩

end AutoRun
